import Mathlib

set_option autoImplicit false

/-!
Verification of the transport layer of pynetdicom3 (files
`pynetdicom3/transport.py` and `pynetdicom3/tests/test_transport.py`).

The development shallowly embeds the Python code: bytes are `Nat`,
byte streams are `List Nat`, Python dicts are insertion-ordered
association lists, exceptions are explicit `Except`/outcome values,
and attribute/global-name resolution is modelled by lookup in the
lists of names that the source actually defines.
-/

/-! ## Byte-stream reading (`on_c_echo` in tests/test_transport.py)

The only framed-message reader in the sources is the `on_c_echo`
handler.  `socket.recv(n)` on a blocking socket returns *up to* `n`
bytes; once the peer has sent `stream` and closed the connection,
`recv n` returns the first `min n |stream|` bytes still unread.  -/

/-- Model of `socket.recv(n)` after the peer has sent `stream` and
closed: returns up to `n` bytes and the rest of the stream. -/
def pyRecv (stream : List Nat) (n : Nat) : List Nat × List Nat :=
  (stream.take n, stream.drop n)

/-- Model of `struct.unpack('B', b)[0]`: requires exactly one byte,
otherwise `struct.error` (modelled as `none`). -/
def unpack_B (b : List Nat) : Option Nat :=
  match b with
  | [x] => some x
  | _ => none

/-- Model of `struct.unpack('>L', b)[0]`: requires exactly four bytes,
read big-endian, otherwise `struct.error` (modelled as `none`). -/
def unpack_beL (b : List Nat) : Option Nat :=
  match b with
  | [a, b1, c, d] => some (((a * 256 + b1) * 256 + c) * 256 + d)
  | _ => none

/-- The PDU type codes `on_c_echo` recognises (`0x01` .. `0x07`). -/
def recognisedPduTypes : List Nat := [1, 2, 3, 4, 5, 6, 7]

/-- Result of the reading phase of `on_c_echo`: the decoded type code,
whether it was recognised, the accumulated `bytestream`, and the length
declared in the header. -/
structure EchoRead where
  pduType : Nat
  recognised : Bool
  bytestream : List Nat
  declaredLength : Nat
deriving DecidableEq

/-- The reading phase of `on_c_echo` (tests/test_transport.py):
`recv(1)` + `unpack('B')` for the type code, `recv(1)` for the reserved
byte, `recv(4)` + `unpack('>L')` for the length, then a single
`recv(length)` for the payload, with no check that `length` bytes were
actually returned.  `none` models a `struct.error` escaping. -/
def on_c_echo_read (stream : List Nat) : Option EchoRead :=
  let r1 := pyRecv stream 1
  match unpack_B r1.1 with
  | none => none
  | some t =>
    let r2 := pyRecv r1.2 1
    let r3 := pyRecv r2.2 4
    match unpack_beL r3.1 with
    | none => none
    | some len =>
      let r4 := pyRecv r3.2 len
      some ⟨t, recognisedPduTypes.contains t, r1.1 ++ r2.1 ++ r3.1 ++ r4.1, len⟩

/-! ## The server-parameter dict of `start_server` (transport.py)

Python dicts are insertion ordered; `d[k] = v` overwrites in place or
appends a new key at the end, and `d.update(e)` performs `d[k] = v` for
each entry of `e` in order.  Values here are rationals so that the
delay defaults `0.01` and `1.0` are exact. -/

/-- Lookup in an insertion-ordered dict. -/
def dictGet : List (String × ℚ) → String → Option ℚ
  | [], _ => none
  | (k, v) :: rest, key => if k = key then some v else dictGet rest key

/-- Python `d[key] = val`: overwrite in place, or append a new key. -/
def dictSet : List (String × ℚ) → String → ℚ → List (String × ℚ)
  | [], key, val => [(key, val)]
  | (k, v) :: rest, key, val =>
    if k = key then (k, val) :: rest else (k, v) :: dictSet rest key val

/-- Python `d.update(e)`: set each entry of `e` in order. -/
def dictUpdate (d : List (String × ℚ)) : List (String × ℚ) → List (String × ℚ)
  | [] => d
  | (k, v) :: rest => dictUpdate (dictSet d k v) rest

/-- The literal `params` dict built by `TransportService.start_server`. -/
def defaultServerParams : List (String × ℚ) :=
  [("stop_timeout", 0), ("min_delay", 1/100), ("max_delay", 1), ("max_accept", 100)]

/-- The parameters `start_server` ends up assigning onto the
`StreamServer` via `setattr`: the defaults, updated by `server_params`
when the latter is truthy (`if server_params:` is false both for `None`
and for an empty dict). -/
def start_server_params (server_params : Option (List (String × ℚ))) : List (String × ℚ) :=
  match server_params with
  | none => defaultServerParams
  | some l => if l = [] then defaultServerParams else dictUpdate defaultServerParams l

/-! Dict lemmas. -/

theorem dictGet_dictSet_ne (d : List (String × ℚ)) (k key : String) (val : ℚ)
    (h : k ≠ key) : dictGet (dictSet d k val) key = dictGet d key := by
  induction d with
  | nil => simp [dictSet, dictGet, h]
  | cons p rest ih =>
    obtain ⟨k', v'⟩ := p
    by_cases hk : k' = k
    · subst hk
      simp [dictSet, dictGet, h]
    · simp only [dictSet, if_neg hk]
      by_cases hkey : k' = key
      · simp [dictGet, hkey]
      · simp [dictGet, hkey, ih]

theorem dictGet_dictUpdate_not_mem (d l : List (String × ℚ)) (key : String)
    (h : dictGet l key = none) : dictGet (dictUpdate d l) key = dictGet d key := by
  induction l generalizing d with
  | nil => rfl
  | cons p rest ih =>
    obtain ⟨k, v⟩ := p
    by_cases hk : k = key
    · subst hk
      simp [dictGet] at h
    · simp only [dictGet, if_neg hk] at h
      simpa [dictUpdate] using (ih (dictSet d k v) h).trans
        (dictGet_dictSet_ne d k key v hk)

/-! ## Claim C1 -/

/-- C1: the claim says the reader consumes exactly `6 + L` bytes and
fails with a framing error if the peer closes the stream early.  On the
stream `01 00 00 00 00 04 aa bb` — a header declaring a 4-byte payload
followed by only 2 payload bytes before the peer closes — `on_c_echo`
raises no error at all: it returns an 8-byte `bytestream` (short of the
`6 + 4` bytes the header promised) and proceeds. -/
theorem on_c_echo_read_short_stream_returns_message :
    on_c_echo_read [1, 0, 0, 0, 0, 4, 170, 187] =
      some ⟨1, true, [1, 0, 0, 0, 0, 4, 170, 187], 4⟩ ∧
    ([1, 0, 0, 0, 0, 4, 170, 187] : List Nat).length = 8 ∧ 8 < 6 + 4 := by
  refine ⟨rfl, rfl, by norm_num⟩

/-! ## Claims C5 and C7 -/

/-- C5, counterexample: linger-on-close (`stop_timeout`) is in fact
configurable — `params.update(server_params)` runs after the defaults
are built, so `start_server(port, server_params={'stop_timeout': 5})`
produces a server whose `stop_timeout` is `5`, not `0`. -/
theorem start_server_stop_timeout_overridden :
    dictGet (start_server_params (some [("stop_timeout", 5)])) "stop_timeout" = some 5 ∧
    (5 : ℚ) ≠ 0 := by
  refine ⟨rfl, by norm_num⟩

/-- C5, amended: `stop_timeout` *defaults* to 0 — when `server_params`
is `None` or does not bind `stop_timeout`, the resulting server's
`stop_timeout` is 0 — but a `server_params` that names `stop_timeout`
overrides it. -/
theorem start_server_stop_timeout_default (sp : Option (List (String × ℚ)))
    (h : ∀ l, sp = some l → dictGet l "stop_timeout" = none) :
    dictGet (start_server_params sp) "stop_timeout" = some 0 := by
  match sp with
  | none => rfl
  | some l =>
    simp only [start_server_params]
    by_cases hl : l = []
    · rw [if_pos hl]
      rfl
    · rw [if_neg hl, dictGet_dictUpdate_not_mem _ _ _ (h l rfl)]
      rfl

/-- Witness for the amended C5 theorem at `server_params =
{'max_accept': 7}`. -/
theorem start_server_stop_timeout_default_witness :
    dictGet (start_server_params (some [("max_accept", 7)])) "stop_timeout" = some 0 :=
  start_server_stop_timeout_default (some [("max_accept", 7)])
    (fun l hl => by cases hl; rfl)

/-- C7: with `server_params = None`, `start_server` configures exactly
the documented defaults: `max_accept` (maximum concurrent connections)
100, `min_delay` 0.01 s and `max_delay` 1.0 s (and `stop_timeout` 0). -/
theorem start_server_none_defaults :
    dictGet (start_server_params none) "max_accept" = some 100 ∧
    dictGet (start_server_params none) "min_delay" = some (1/100) ∧
    dictGet (start_server_params none) "max_delay" = some 1 ∧
    dictGet (start_server_params none) "stop_timeout" = some 0 := by
  refine ⟨rfl, rfl, rfl, rfl⟩

/-! ## Callback registry (`TransportService.__init__` / `add_callback`)

Callbacks are identified by `Nat` ids; a handler's runtime behaviour
(return normally or raise) is a separate environment `behav : Nat →
PyFlow`, so that the same registered list can be dispatched under any
behaviour.

A raised Python exception carries its class: `except Exception` catches
only classes derived from `Exception`, while `BaseException`-only
classes — `SystemExit`, `KeyboardInterrupt` and gevent's
`gevent.Timeout`, which gevent deliberately derives from
`BaseException` so that plain `except Exception` clauses do not swallow
it — pass through such a clause uncaught. -/

/-- A raised Python exception: its class name, and whether that class
derives from `Exception` (`false` for `BaseException`-only classes such
as `gevent.Timeout`, `SystemExit`, `KeyboardInterrupt`). -/
structure PyExc where
  name : String
  isException : Bool
deriving DecidableEq

/-- Control flow of a Python statement: fell through normally, or an
exception is propagating. -/
inductive PyFlow where
  | normal
  | raised (exc : PyExc)
deriving DecidableEq

/-- Model of `try: <body> except Exception: pass`: an
`Exception`-derived raise is swallowed and control falls through, but a
`BaseException`-derived raise is not matched by the clause and keeps
propagating. -/
def tryExceptPass (r : PyFlow) : PyFlow :=
  match r with
  | PyFlow.normal => PyFlow.normal
  | PyFlow.raised e => if e.isException then PyFlow.normal else PyFlow.raised e

/-- Whether a handler outcome is absorbed by the loop body's
`except Exception: pass` (true also for a normal return). -/
def caughtByExceptException (r : PyFlow) : Bool :=
  match r with
  | PyFlow.normal => true
  | PyFlow.raised e => e.isException

/-- Whether the dispatch loop over handlers `l` runs to completion
under behaviour `behav`: no handler raise escapes its
`except Exception` clause. -/
def loopCompletes (behav : Nat → PyFlow) (l : List Nat) : Bool :=
  l.all (fun c => caughtByExceptException (behav c))

/-- State of one accepted transport connection's socket. -/
structure SocketState where
  isOpen : Bool
deriving DecidableEq

/-- The `self.callbacks` dict set up by `TransportService.__init__`,
with its three fixed keys. -/
structure TSCallbacks where
  confirmation_ind : List Nat
  open_ind : List Nat
  close_ind : List Nat
deriving DecidableEq

/-- `self.callbacks` as `__init__` leaves it: three empty lists. -/
def initCallbacks : TSCallbacks := ⟨[], [], []⟩

/-- The body of `add_callback`'s guarded append:
`if callback not in self.callbacks[trigger]: append`. -/
def appendIfAbsent (l : List Nat) (c : Nat) : List Nat :=
  if c ∈ l then l else l ++ [c]

/-- `TransportService.add_callback(callback, trigger)`: `ValueError`
for a trigger that is not a key of `self.callbacks`, otherwise append
the callback to that trigger's list unless already present. -/
def add_callback (st : TSCallbacks) (c : Nat) (trigger : String) : Except String TSCallbacks :=
  if trigger = "connection_confirmation_indication" then
    Except.ok { st with confirmation_ind := appendIfAbsent st.confirmation_ind c }
  else if trigger = "connection_open_indication" then
    Except.ok { st with open_ind := appendIfAbsent st.open_ind c }
  else if trigger = "connection_close_indication" then
    Except.ok { st with close_ind := appendIfAbsent st.close_ind c }
  else
    Except.error "ValueError: Invalid callback trigger"

/-- A sequence of `add_callback(c, 'connection_open_indication')`
registrations, in order. -/
def registerAll (st : TSCallbacks) : List Nat → Except String TSCallbacks
  | [] => Except.ok st
  | c :: cs =>
    match add_callback st c "connection_open_indication" with
    | Except.ok st2 => registerAll st2 cs
    | Except.error e => Except.error e

/-- The dispatch loop of `handle_server_connection`:
`for fn in self.callbacks['connection_open_indication']: try:
fn(socket=socket, address=addr) except Exception: pass`.  Returns the
socket state, the ids invoked in order, and the loop's control flow
(a body that raised out of its `try` would stop the loop and
propagate). -/
def callbackLoop (behav : Nat → PyFlow) (sock : SocketState) :
    List Nat → SocketState × List Nat × PyFlow
  | [] => (sock, [], PyFlow.normal)
  | c :: cs =>
    match tryExceptPass (behav c) with
    | PyFlow.normal =>
      let r := callbackLoop behav sock cs
      (r.1, c :: r.2.1, r.2.2)
    | PyFlow.raised e => (sock, [c], PyFlow.raised e)

/-! ## `handle_server_connection` (transport.py)

The module's global names are exactly its imports plus its two class
statements; in particular `ae` and `sys` are *not* among them, so the
lines `ae.active_associations.append(assoc)` /
`ae.active_associations.remove(assoc)` and `sys.exit(...)` raise
`NameError` when reached.  (Line 276 of transport.py,
`ae.active_associations.remove(assoc)`, is additionally mis-indented by
one extra space; we embed the evidently intended block structure.) -/

/-- The global names defined by module `pynetdicom3.transport`: its
imports and its two classes. -/
def transportModuleGlobals : List String :=
  ["namedtuple", "signal", "gevent", "socket", "StreamServer",
   "create_connection", "Association", "TransportConnect", "TransportService"]

/-- Python global-name resolution for module `pynetdicom3.transport`. -/
def resolvesGlobal (n : String) : Bool :=
  transportModuleGlobals.contains n

/-- What happens inside `handle_server_connection`'s `try` block, whose
statements are the external call `Association(self.ae,
client_socket=socket)` followed by `ae.active_associations.append(assoc)`:
the constructor returns, some non-`gevent.Timeout` exception is raised,
or a `gevent.Timeout` fires (either the handler's own `network_timeout`
or a foreign one).  The `try` block is only reached when the callback
loop before it ran to completion. -/
inductive TryBodyEvent where
  | assocOk
  | otherExc (exc : PyExc)
  | timeoutFires (own : Bool)
deriving DecidableEq

/-- Observable trace of one `handle_server_connection` run. -/
structure HSCTrace where
  invokedOpen : List Nat
  closeCbInvoked : Bool
  sentBytes : List Nat
  registryChanged : Bool
  sock : SocketState
  flow : PyFlow
deriving DecidableEq

/-- Shallow embedding of `TransportService.handle_server_connection`:
arm `network_timeout`, dispatch the `connection_open_indication`
callbacks through per-iteration `try/except Exception: pass`, then run
the `try` block; its `except gevent.Timeout as t` clause re-raises a
foreign timeout (`if t is not network_timeout: raise`) and otherwise
falls through to `ae.active_associations.remove(assoc)`.  The callback
loop is not inside any `try`, so a `BaseException`-derived raise that
escapes a loop body propagates straight out of the function and the
`try` block (described by `ev`) is never reached.  Nothing in the
function writes to the socket, closes it, or dispatches
`connection_close_indication` callbacks. -/
def handle_server_connection (behav : Nat → PyFlow) (cbs : TSCallbacks)
    (sock : SocketState) (ev : TryBodyEvent) : HSCTrace :=
  match callbackLoop behav sock cbs.open_ind with
  | (sock1, invoked, PyFlow.raised e) =>
    { invokedOpen := invoked, closeCbInvoked := false, sentBytes := [],
      registryChanged := false, sock := sock1, flow := PyFlow.raised e }
  | (sock1, invoked, PyFlow.normal) =>
    match ev with
    | TryBodyEvent.assocOk =>
      if resolvesGlobal "ae" then
        { invokedOpen := invoked, closeCbInvoked := false, sentBytes := [],
          registryChanged := true, sock := sock1, flow := PyFlow.normal }
      else
        { invokedOpen := invoked, closeCbInvoked := false, sentBytes := [],
          registryChanged := false, sock := sock1,
          flow := PyFlow.raised ⟨"NameError", true⟩ }
    | TryBodyEvent.otherExc e =>
      { invokedOpen := invoked, closeCbInvoked := false, sentBytes := [],
        registryChanged := false, sock := sock1, flow := PyFlow.raised e }
    | TryBodyEvent.timeoutFires own =>
      if own then
        if resolvesGlobal "ae" then
          { invokedOpen := invoked, closeCbInvoked := false, sentBytes := [],
            registryChanged := true, sock := sock1, flow := PyFlow.normal }
        else
          { invokedOpen := invoked, closeCbInvoked := false, sentBytes := [],
            registryChanged := false, sock := sock1,
            flow := PyFlow.raised ⟨"NameError", true⟩ }
      else
        { invokedOpen := invoked, closeCbInvoked := false, sentBytes := [],
          registryChanged := false, sock := sock1,
          flow := PyFlow.raised ⟨"gevent.Timeout", false⟩ }

/-! Dispatch lemmas. -/

theorem tryExceptPass_of_caught {r : PyFlow} (h : caughtByExceptException r = true) :
    tryExceptPass r = PyFlow.normal := by
  cases r with
  | normal => rfl
  | raised e =>
    simp only [caughtByExceptException] at h
    simp [tryExceptPass, h]

theorem callbackLoop_eq (behav : Nat → PyFlow) (sock : SocketState) (l : List Nat)
    (h : loopCompletes behav l = true) :
    callbackLoop behav sock l = (sock, l, PyFlow.normal) := by
  induction l with
  | nil => rfl
  | cons c cs ih =>
    simp only [loopCompletes, List.all_cons, Bool.and_eq_true] at h
    have hrest : loopCompletes behav cs = true := h.2
    simp [callbackLoop, tryExceptPass_of_caught h.1, ih hrest]

theorem callbackLoop_invoked_prefix (behav : Nat → PyFlow) (sock : SocketState)
    (l : List Nat) : (callbackLoop behav sock l).2.1 <+: l := by
  induction l with
  | nil => simp [callbackLoop]
  | cons c cs ih =>
    cases htep : tryExceptPass (behav c) with
    | normal =>
      simpa [callbackLoop, htep, List.cons_prefix_cons] using ih
    | raised e =>
      simp [callbackLoop, htep, List.cons_prefix_cons]

theorem loopCompletes_of_normal (l : List Nat) :
    loopCompletes (fun _ => PyFlow.normal) l = true := by
  simp [loopCompletes, caughtByExceptException]

theorem resolvesGlobal_ae : resolvesGlobal "ae" = false := rfl

/-- Master evaluation lemma for `handle_server_connection` in the case
where no handler raise escapes the dispatch loop. -/
theorem handle_server_connection_eq (behav : Nat → PyFlow) (cbs : TSCallbacks)
    (sock : SocketState) (ev : TryBodyEvent)
    (h : loopCompletes behav cbs.open_ind = true) :
    handle_server_connection behav cbs sock ev =
      { invokedOpen := cbs.open_ind, closeCbInvoked := false, sentBytes := [],
        registryChanged := false, sock := sock,
        flow := match ev with
          | TryBodyEvent.assocOk => PyFlow.raised ⟨"NameError", true⟩
          | TryBodyEvent.otherExc e => PyFlow.raised e
          | TryBodyEvent.timeoutFires own =>
            if own then PyFlow.raised ⟨"NameError", true⟩
            else PyFlow.raised ⟨"gevent.Timeout", false⟩ } := by
  cases ev with
  | assocOk =>
    simp [handle_server_connection, callbackLoop_eq behav sock _ h, resolvesGlobal_ae]
  | otherExc e =>
    simp [handle_server_connection, callbackLoop_eq behav sock _ h]
  | timeoutFires own =>
    cases own <;>
      simp [handle_server_connection, callbackLoop_eq behav sock _ h, resolvesGlobal_ae]

/-- When the dispatch loop escapes is irrelevant to these fields: no
run of `handle_server_connection` dispatches a close callback, writes
to the peer, or touches the registry on an exceptional path. -/
theorem handle_server_connection_quiet (behav : Nat → PyFlow) (cbs : TSCallbacks)
    (sock : SocketState) (ev : TryBodyEvent) :
    (handle_server_connection behav cbs sock ev).closeCbInvoked = false ∧
    (handle_server_connection behav cbs sock ev).sentBytes = [] ∧
    (handle_server_connection behav cbs sock ev).sock = sock ∧
    (handle_server_connection behav cbs sock ev).invokedOpen <+: cbs.open_ind := by
  have hsock : (callbackLoop behav sock cbs.open_ind).1 = sock := by
    induction cbs.open_ind with
    | nil => rfl
    | cons c cs ih =>
      cases htep : tryExceptPass (behav c) with
      | normal => simpa [callbackLoop, htep] using ih
      | raised e => simp [callbackLoop, htep]
  have hpre := callbackLoop_invoked_prefix behav sock cbs.open_ind
  rcases hloop : callbackLoop behav sock cbs.open_ind with ⟨sock1, invoked, flow⟩
  rw [hloop] at hsock hpre
  cases flow with
  | normal =>
    cases ev with
    | assocOk =>
      simp_all [handle_server_connection, hloop, resolvesGlobal_ae]
    | otherExc e =>
      simp_all [handle_server_connection, hloop]
    | timeoutFires own =>
      cases own <;> simp_all [handle_server_connection, hloop, resolvesGlobal_ae]
  | raised e =>
    simp_all [handle_server_connection, hloop]

/-! Registration lemmas. -/

theorem add_callback_open (st : TSCallbacks) (c : Nat) :
    add_callback st c "connection_open_indication" =
      Except.ok { st with open_ind := appendIfAbsent st.open_ind c } := rfl

theorem registerAll_ok (cs : List Nat) (st : TSCallbacks) :
    registerAll st cs =
      Except.ok ⟨st.confirmation_ind, List.foldl appendIfAbsent st.open_ind cs,
        st.close_ind⟩ := by
  induction cs generalizing st with
  | nil => rfl
  | cons c cs ih =>
    rw [registerAll, add_callback_open]
    show registerAll ⟨st.confirmation_ind, appendIfAbsent st.open_ind c,
      st.close_ind⟩ cs = _
    rw [ih]
    rfl

theorem appendIfAbsent_of_not_mem {l : List Nat} {c : Nat} (h : c ∉ l) :
    appendIfAbsent l c = l ++ [c] := by
  simp [appendIfAbsent, h]

theorem appendIfAbsent_idem (l : List Nat) (c : Nat) :
    appendIfAbsent (appendIfAbsent l c) c = appendIfAbsent l c := by
  by_cases h : c ∈ l
  · simp [appendIfAbsent, h]
  · simp [appendIfAbsent, h]

theorem appendIfAbsent_nodup {l : List Nat} (h : l.Nodup) (c : Nat) :
    (appendIfAbsent l c).Nodup := by
  by_cases hc : c ∈ l
  · simpa [appendIfAbsent, hc] using h
  · simp [appendIfAbsent, hc, List.nodup_append, h]

theorem foldl_appendIfAbsent_nodup (cs : List Nat) :
    ∀ l : List Nat, l.Nodup → (List.foldl appendIfAbsent l cs).Nodup := by
  induction cs with
  | nil => intro l hl; simpa using hl
  | cons c cs ih =>
    intro l hl
    simpa [List.foldl] using ih (appendIfAbsent l c) (appendIfAbsent_nodup hl c)

theorem foldl_appendIfAbsent_of_nodup (cs : List Nat) :
    ∀ l : List Nat, (l ++ cs).Nodup → List.foldl appendIfAbsent l cs = l ++ cs := by
  induction cs with
  | nil => intro l _; simp
  | cons c cs ih =>
    intro l hl
    have hcl : c ∉ l := by
      rcases (List.nodup_append.mp hl) with ⟨-, -, hdisj⟩
      intro hc
      exact hdisj hc (List.mem_cons_self c cs)
    have hassoc : l ++ c :: cs = (l ++ [c]) ++ cs := by simp
    rw [List.foldl, appendIfAbsent_of_not_mem hcl, hassoc]
    exact ih (l ++ [c]) (by rw [← hassoc]; exact hl)

/-! ## Claim C2 -/

/-- C2, counterexample: the per-handler guard is `except Exception:
pass`, which does not catch `BaseException`-derived raises.  With
handlers `[1, 2]` registered and handler `1` raising `gevent.Timeout`
(derived from `BaseException` only — e.g. the connection's own
`network_timeout`, armed before the loop, firing inside a slow
handler), the raise escapes the loop: handler `2` is never invoked and
the exception propagates out of `handle_server_connection` — so the
exception is neither discarded nor prevented from skipping the
remaining handlers. -/
theorem handler_base_exception_escapes :
    (handle_server_connection
        (fun c => if c = 1 then PyFlow.raised ⟨"gevent.Timeout", false⟩
                  else PyFlow.normal)
        ⟨[], [1, 2], []⟩ ⟨true⟩ TryBodyEvent.assocOk).invokedOpen = [1] ∧
    (handle_server_connection
        (fun c => if c = 1 then PyFlow.raised ⟨"gevent.Timeout", false⟩
                  else PyFlow.normal)
        ⟨[], [1, 2], []⟩ ⟨true⟩ TryBodyEvent.assocOk).flow
      = PyFlow.raised ⟨"gevent.Timeout", false⟩ ∧
    2 ∉ ([1] : List Nat) ∧ 2 ∈ ([1, 2] : List Nat) := by
  exact ⟨rfl, rfl, by decide, by decide⟩

/-- C2, amended: every handler exception whose class derives from
`Exception` is caught and discarded at the `TransportService`
boundary — all registered handlers are still invoked in order, the
socket is untouched, nothing is written to the peer, and the whole
observable trace is the same as if no handler had raised; but a
`BaseException`-derived raise (`gevent.Timeout`, `SystemExit`,
`KeyboardInterrupt`) is not caught by `except Exception`: it escapes
the loop, skips the remaining handlers and propagates out of the
per-connection handler. -/
theorem handle_server_connection_isolates_handlers
    (behav : Nat → PyFlow) (cbs : TSCallbacks) (sock : SocketState)
    (ev : TryBodyEvent) (h : loopCompletes behav cbs.open_ind = true) :
    (handle_server_connection behav cbs sock ev).invokedOpen = cbs.open_ind ∧
    (handle_server_connection behav cbs sock ev).sock = sock ∧
    (handle_server_connection behav cbs sock ev).sentBytes = [] ∧
    handle_server_connection behav cbs sock ev =
      handle_server_connection (fun _ => PyFlow.normal) cbs sock ev := by
  rw [handle_server_connection_eq behav cbs sock ev h,
    handle_server_connection_eq (fun _ => PyFlow.normal) cbs sock ev
      (loopCompletes_of_normal cbs.open_ind)]
  exact ⟨rfl, rfl, rfl, rfl⟩

/-- Witness for the amended C2 theorem: both registered handlers raise
an `Exception`-derived `ValueError`, yet both are invoked and the trace
equals the non-raising trace. -/
theorem handle_server_connection_isolates_handlers_witness :
    (handle_server_connection (fun _ => PyFlow.raised ⟨"ValueError", true⟩)
        ⟨[], [1, 2], []⟩ ⟨true⟩ TryBodyEvent.assocOk).invokedOpen = [1, 2] ∧
    (handle_server_connection (fun _ => PyFlow.raised ⟨"ValueError", true⟩)
        ⟨[], [1, 2], []⟩ ⟨true⟩ TryBodyEvent.assocOk).sock = ⟨true⟩ ∧
    (handle_server_connection (fun _ => PyFlow.raised ⟨"ValueError", true⟩)
        ⟨[], [1, 2], []⟩ ⟨true⟩ TryBodyEvent.assocOk).sentBytes = [] ∧
    handle_server_connection (fun _ => PyFlow.raised ⟨"ValueError", true⟩)
        ⟨[], [1, 2], []⟩ ⟨true⟩ TryBodyEvent.assocOk =
      handle_server_connection (fun _ => PyFlow.normal)
        ⟨[], [1, 2], []⟩ ⟨true⟩ TryBodyEvent.assocOk :=
  handle_server_connection_isolates_handlers
    (fun _ => PyFlow.raised ⟨"ValueError", true⟩) ⟨[], [1, 2], []⟩ ⟨true⟩
    TryBodyEvent.assocOk rfl

/-! ## Claim C4 -/

/-- C4: when the connection's own `network_timeout` fires inside the
`try` block before an opening message produced an `Association` (the
scenario presupposes the callback phase before the `try` block ran to
completion, which `h` states), the code does write nothing to the peer
— but, contrary to the claim, no `connection_close_indication` callback
is ever dispatched (so no `timed-out` close callback fires) and the
registry removal fails: `ae.active_associations.remove(assoc)` raises
`NameError` (`ae` is not a name of the module; the intended name is
`self.ae`), so the association registry is not updated and the handler
exits with an exception. -/
theorem handle_server_connection_timeout_trace
    (behav : Nat → PyFlow) (cbs : TSCallbacks) (sock : SocketState)
    (h : loopCompletes behav cbs.open_ind = true) :
    (handle_server_connection behav cbs sock (TryBodyEvent.timeoutFires true)).sentBytes
        = [] ∧
    (handle_server_connection behav cbs sock
        (TryBodyEvent.timeoutFires true)).closeCbInvoked = false ∧
    (handle_server_connection behav cbs sock
        (TryBodyEvent.timeoutFires true)).registryChanged = false ∧
    (handle_server_connection behav cbs sock (TryBodyEvent.timeoutFires true)).flow
        = PyFlow.raised ⟨"NameError", true⟩ := by
  rw [handle_server_connection_eq behav cbs sock (TryBodyEvent.timeoutFires true) h]
  exact ⟨rfl, rfl, rfl, rfl⟩

/-- Witness for C4 with no registered handlers. -/
theorem handle_server_connection_timeout_trace_witness :
    (handle_server_connection (fun _ => PyFlow.normal) initCallbacks ⟨true⟩
        (TryBodyEvent.timeoutFires true)).sentBytes = [] ∧
    (handle_server_connection (fun _ => PyFlow.normal) initCallbacks ⟨true⟩
        (TryBodyEvent.timeoutFires true)).closeCbInvoked = false ∧
    (handle_server_connection (fun _ => PyFlow.normal) initCallbacks ⟨true⟩
        (TryBodyEvent.timeoutFires true)).registryChanged = false ∧
    (handle_server_connection (fun _ => PyFlow.normal) initCallbacks ⟨true⟩
        (TryBodyEvent.timeoutFires true)).flow = PyFlow.raised ⟨"NameError", true⟩ :=
  handle_server_connection_timeout_trace (fun _ => PyFlow.normal) initCallbacks
    ⟨true⟩ rfl

/-! ## Claim C6 -/

/-- C6, counterexample: a `gevent.Timeout` that is not the connection's
own timer is an exception arising while handling the accepted
connection, and `handle_server_connection` explicitly re-raises it
(`if t is not network_timeout: raise`) — the failure propagates out of
the per-connection handler instead of being contained, and no
`connection-closed` callback is produced. -/
theorem handle_server_connection_foreign_timeout_escapes :
    (handle_server_connection (fun _ => PyFlow.normal) initCallbacks ⟨true⟩
        (TryBodyEvent.timeoutFires false)).flow
      = PyFlow.raised ⟨"gevent.Timeout", false⟩ ∧
    (handle_server_connection (fun _ => PyFlow.normal) initCallbacks ⟨true⟩
        (TryBodyEvent.timeoutFires false)).closeCbInvoked = false := by
  exact ⟨rfl, rfl⟩

/-- C6, amended: exceptions other than the connection's own timeout are
*not* contained by the per-connection handler: a foreign
`gevent.Timeout` is explicitly re-raised, any other exception inside
the `try` block propagates uncaught (the only `except` clause matches
`gevent.Timeout`), and even the normal path escapes with `NameError`
(the `try`-block scenarios presuppose the callback phase completed,
which `h` states); in every case — the escaping-handler case included —
no `connection_close_indication` callback is dispatched, so the
exception itself, not a close callback, is the externally visible
signal, and containment is left to the spawning stream server. -/
theorem handle_server_connection_exceptions_escape
    (behav : Nat → PyFlow) (cbs : TSCallbacks) (sock : SocketState) (e : PyExc)
    (h : loopCompletes behav cbs.open_ind = true) :
    (handle_server_connection behav cbs sock (TryBodyEvent.otherExc e)).flow
        = PyFlow.raised e ∧
    (handle_server_connection behav cbs sock (TryBodyEvent.timeoutFires false)).flow
        = PyFlow.raised ⟨"gevent.Timeout", false⟩ ∧
    (handle_server_connection behav cbs sock TryBodyEvent.assocOk).flow
        = PyFlow.raised ⟨"NameError", true⟩ ∧
    ∀ (behav2 : Nat → PyFlow) (ev : TryBodyEvent),
      (handle_server_connection behav2 cbs sock ev).closeCbInvoked = false := by
  refine ⟨?_, ?_, ?_, ?_⟩
  · rw [handle_server_connection_eq behav cbs sock (TryBodyEvent.otherExc e) h]
  · rw [handle_server_connection_eq behav cbs sock (TryBodyEvent.timeoutFires false) h]
    rfl
  · rw [handle_server_connection_eq behav cbs sock TryBodyEvent.assocOk h]
  · intro behav2 ev
    exact (handle_server_connection_quiet behav2 cbs sock ev).1

/-- Witness for the amended C6 theorem with no registered handlers and
a `ZeroDivisionError` as the other exception. -/
theorem handle_server_connection_exceptions_escape_witness :
    (handle_server_connection (fun _ => PyFlow.normal) initCallbacks ⟨true⟩
        (TryBodyEvent.otherExc ⟨"ZeroDivisionError", true⟩)).flow
      = PyFlow.raised ⟨"ZeroDivisionError", true⟩ ∧
    (handle_server_connection (fun _ => PyFlow.normal) initCallbacks ⟨true⟩
        (TryBodyEvent.timeoutFires false)).flow
      = PyFlow.raised ⟨"gevent.Timeout", false⟩ ∧
    (handle_server_connection (fun _ => PyFlow.normal) initCallbacks ⟨true⟩
        TryBodyEvent.assocOk).flow = PyFlow.raised ⟨"NameError", true⟩ ∧
    ∀ (behav2 : Nat → PyFlow) (ev : TryBodyEvent),
      (handle_server_connection behav2 initCallbacks ⟨true⟩ ev).closeCbInvoked
        = false :=
  handle_server_connection_exceptions_escape (fun _ => PyFlow.normal) initCallbacks
    ⟨true⟩ ⟨"ZeroDivisionError", true⟩ rfl

/-! ## Claim C8 -/

/-- C8: registering distinct handlers `cs` (in that order) for the
`connection_open_indication` trigger succeeds and stores them in
registration order, and dispatching the trigger in
`handle_server_connection` invokes handlers in exactly that order,
whatever the connection scenario is: the invoked sequence is always a
prefix of the registration sequence (dispatch never reorders), and when
no handler raise escapes its `except Exception` guard — the only way
the loop can stop early — every registered handler is invoked, in
registration order. -/
theorem add_callback_registration_order
    (cs : List Nat) (behav : Nat → PyFlow) (sock : SocketState)
    (ev : TryBodyEvent) (h : cs.Nodup) :
    ∃ st, registerAll initCallbacks cs = Except.ok st ∧
      st.open_ind = cs ∧
      (handle_server_connection behav st sock ev).invokedOpen <+: cs ∧
      (loopCompletes behav cs = true →
        (handle_server_connection behav st sock ev).invokedOpen = cs) := by
  have hfold : List.foldl appendIfAbsent ([] : List Nat) cs = cs := by
    simpa using foldl_appendIfAbsent_of_nodup cs [] (by simpa using h)
  refine ⟨⟨[], cs, []⟩, ?_, rfl, ?_, ?_⟩
  · rw [registerAll_ok]
    simp [initCallbacks, hfold]
  · exact (handle_server_connection_quiet behav ⟨[], cs, []⟩ sock ev).2.2.2
  · intro hcomp
    rw [handle_server_connection_eq behav ⟨[], cs, []⟩ sock ev hcomp]

/-- Witness for C8 at the registration sequence `[3, 1, 2]` with
handlers that return normally. -/
theorem add_callback_registration_order_witness :
    ∃ st, registerAll initCallbacks [3, 1, 2] = Except.ok st ∧
      st.open_ind = [3, 1, 2] ∧
      (handle_server_connection (fun _ => PyFlow.normal) st ⟨true⟩
        TryBodyEvent.assocOk).invokedOpen <+: [3, 1, 2] ∧
      (loopCompletes (fun _ => PyFlow.normal) [3, 1, 2] = true →
        (handle_server_connection (fun _ => PyFlow.normal) st ⟨true⟩
          TryBodyEvent.assocOk).invokedOpen = [3, 1, 2]) :=
  add_callback_registration_order [3, 1, 2] (fun _ => PyFlow.normal) ⟨true⟩
    TryBodyEvent.assocOk (by decide)

/-! ## Claim C9 -/

/-- C9: `add_callback` is idempotent per trigger — re-adding the same
callback to the same trigger returns the state unchanged (for an
invalid trigger both calls raise the same `ValueError`), and any
handler list built by repeated registration contains each callback at
most once, so dispatch invokes it at most once. -/
theorem add_callback_idempotent :
    (∀ (st : TSCallbacks) (c : Nat) (t : String),
      (match add_callback st c t with
       | Except.ok st2 => add_callback st2 c t
       | Except.error e => Except.error e) = add_callback st c t) ∧
    (∀ (cs : List Nat) (st : TSCallbacks) (c : Nat),
      registerAll initCallbacks cs = Except.ok st → st.open_ind.count c ≤ 1) := by
  constructor
  · intro st c t
    by_cases h1 : t = "connection_confirmation_indication"
    · subst h1
      simp [add_callback, appendIfAbsent_idem]
    · by_cases h2 : t = "connection_open_indication"
      · subst h2
        simp [add_callback, appendIfAbsent_idem]
      · by_cases h3 : t = "connection_close_indication"
        · subst h3
          simp [add_callback, h1, h2, appendIfAbsent_idem]
        · simp [add_callback, h1, h2, h3]
  · intro cs st c hreg
    rw [registerAll_ok] at hreg
    have hst : st.open_ind = List.foldl appendIfAbsent [] cs := by
      cases hreg' : hreg
      all_goals rfl
    have hnodup : st.open_ind.Nodup := by
      rw [hst]
      exact foldl_appendIfAbsent_nodup cs [] (by simp)
    exact List.nodup_iff_count_le_one.mp hnodup c

/-- Witness for C9's dispatch-count part at the registration sequence
`[5, 5]` (the same handler registered twice). -/
theorem add_callback_idempotent_witness :
    (⟨[], [5], []⟩ : TSCallbacks).open_ind.count 5 ≤ 1 :=
  add_callback_idempotent.2 [5, 5] ⟨[], [5], []⟩ 5 (by rfl)

/-! ## `open_connection` (transport.py)

Attribute lookup on a `TransportService` instance searches the
attributes `__init__` assigned and the methods of the class; `timeout`
is in neither (`__init__` defines `network_timeout`), so evaluating
`self.timeout` raises `AttributeError` before `create_connection` is
even attempted.  Were the attribute present, the `try` block catches
only `IOError` (returning `False`), and the final `return socket`
returns the imported `gevent.socket` *module* — the freshly connected
socket is bound to the local `dest` and discarded. -/

/-- Instance attributes assigned by `TransportService.__init__`. -/
def transportServiceInstanceAttrs : List String :=
  ["ae", "scp", "callbacks", "network_timeout"]

/-- Methods defined in the body of `class TransportService`. -/
def transportServiceClassAttrs : List String :=
  ["add_callback", "connection_indication", "handle_server_connection",
   "open_connection", "request_connection", "start_server", "close",
   "stop_server"]

/-- Python attribute resolution on a `TransportService` instance. -/
def hasAttr (n : String) : Bool :=
  transportServiceInstanceAttrs.contains n || transportServiceClassAttrs.contains n

/-- Values `open_connection` can return: `False` from the `except
IOError` arm, or the name `socket` — the `gevent.socket` module, not
the connection `dest`. -/
inductive OpenConnectionValue where
  | retFalse
  | socketModule
deriving DecidableEq

/-- Shallow embedding of `TransportService.open_connection(primitive)`.
`connectOutcome` is the behaviour of the external
`create_connection(primitive, ...)` call: `Except.ok` for an
established connection, `Except.error` for an `IOError` (refused /
timed out).  The embedding resolves `self.timeout` first, as the
argument evaluation of `create_connection` does. -/
def open_connection (connectOutcome : Except Unit Unit) :
    Except String OpenConnectionValue :=
  if hasAttr "timeout" then
    match connectOutcome with
    | Except.error _ => Except.ok OpenConnectionValue.retFalse
    | Except.ok _ => Except.ok OpenConnectionValue.socketModule
  else
    Except.error "AttributeError"

/-! ## Claim C3 -/

/-- C3: whatever the peer does — connection established, refused or
timed out — `open_connection` never returns the newly established
connection and never returns a distinguishable connect error: it
always raises `AttributeError`, because it reads `self.timeout` while
`__init__` only ever defines `network_timeout`.  (Even with that slip
repaired, the success path would return the `gevent.socket` module and
discard the new connection `dest`, and both failure kinds collapse to
`False`.) -/
theorem open_connection_always_attribute_error (connectOutcome : Except Unit Unit) :
    open_connection connectOutcome = Except.error "AttributeError" := by
  have h : hasAttr "timeout" = false := rfl
  simp [open_connection, h]

/-! ## `close` (transport.py)

`TransportService.close` queries whether the stream server is already
closed; if so it runs `sys.exit('Multiple exit signals received -
aborting')` — but `sys` is never imported by transport.py, so the name
lookup raises `NameError` instead of `SystemExit`; otherwise it closes
the stream server. -/

/-- The listener (`gevent.server.StreamServer`) as `close` sees it. -/
structure ScpState where
  closed : Bool
deriving DecidableEq

/-- Shallow embedding of `TransportService.close`. -/
def close (scp : ScpState) : Except String ScpState :=
  if scp.closed then
    if resolvesGlobal "sys" then Except.error "SystemExit"
    else Except.error "NameError"
  else
    Except.ok { scp with closed := true }

/-! ## Claim C10 -/

/-- C10, counterexample: calling `close` on an already-closed server
does not attempt to terminate the process — `sys.exit` never runs
because `sys` is not a name of the module, so the call raises
`NameError`, not `SystemExit`. -/
theorem close_twice_name_error :
    close ⟨true⟩ = Except.error "NameError" ∧
    (Except.error "NameError" : Except String ScpState) ≠ Except.error "SystemExit" := by
  exact ⟨rfl, by simp⟩

/-- C10, amended: stopping the listener is indeed not idempotent — the
first `close` on a running server closes the underlying stream server,
and a second `close` does not return normally — but instead of
terminating the whole process it raises `NameError`: the code calls
`sys.exit(...)` and `sys` is never imported. -/
theorem close_not_idempotent (scp : ScpState) :
    (scp.closed = false → close scp = Except.ok ⟨true⟩) ∧
    (scp.closed = true → close scp = Except.error "NameError") := by
  constructor
  · intro h
    simp [close, h]
  · intro h
    simp [close, h, resolvesGlobal, transportModuleGlobals]

/-- Witness for the amended C10 theorem: a running server, then an
already-closed one. -/
theorem close_not_idempotent_witness :
    close ⟨false⟩ = Except.ok ⟨true⟩ ∧ close ⟨true⟩ = Except.error "NameError" :=
  ⟨(close_not_idempotent ⟨false⟩).1 rfl, (close_not_idempotent ⟨true⟩).2 rfl⟩
